import Mathlib

/-
Verification of the qi-link Zi Wei Dou Shu star-placement engine and the
compatibility/remedy engine, as a shallow embedding of the Python sources
`qi_link/fate_engine.py`, `qi_link/alchemist.py` and `qi_link/models.py`.
-/

namespace QiLink

/-- The five elements (Wu Xing), source `models.py` `class Element`. -/
inductive Element
  | metal
  | wood
  | water
  | fire
  | earth
  deriving DecidableEq, Repr

/-- `Element.generates` from `models.py`: the element this one generates (生). -/
def Element.generates : Element → Element
  | .metal => .water
  | .water => .wood
  | .wood => .fire
  | .fire => .earth
  | .earth => .metal

/-- `Element.controls` from `models.py`: the element this one controls (剋). -/
def Element.controls : Element → Element
  | .metal => .wood
  | .wood => .earth
  | .water => .fire
  | .fire => .metal
  | .earth => .water

instance : Fintype Element :=
  ⟨⟨{.metal, .wood, .water, .fire, .earth}, by decide⟩, by intro x; cases x <;> decide⟩

/-- Enumeration of the five elements in the declaration order of
`models.py` `class Element` (also the iteration order of `for e in Element`). -/
def elementList : List Element := [.metal, .wood, .water, .fire, .earth]

/- ----------------------------------------------------------------
   fate_engine.py : Zi Wei (primary anchor) placement
   ---------------------------------------------------------------- -/

/-- `FateEngine._build_zi_wei_table` body (fate_engine.py lines 116-161):
the position computed for a `(bureau, day)` key of `ZI_WEI_TABLE`.
Integer arithmetic is over ℤ with `Int.emod`, which agrees with Python `%`
for the positive modulus 12. -/
def ziWeiPosition (bureau day : Nat) : Nat :=
  let quotient := day / bureau
  let remainder := day % bureau
  let position_1based : Int :=
    if remainder = 0 then
      3 + (quotient : Int) - 1
    else
      let add_on : Int := (bureau : Int) - (remainder : Int)
      let new_quotient := quotient + 1
      let base_position : Int := 3 + (new_quotient : Int) - 1
      if new_quotient % 2 = 1 then base_position + add_on
      else base_position - add_on
  ((position_1based - 1) % 12).toNat

/-- `FateEngine.get_zi_wei_location` (fate_engine.py lines 163-175):
clamps the lunar day into [1,30] and looks the pair up in `ZI_WEI_TABLE`
(whose keys are exactly bureau ∈ {2..6} × day ∈ [1,30]), with the
dict-`get` default 2 on a missing key. -/
def get_zi_wei_location (lunar_day : Int) (bureau : Nat) : Nat :=
  let day := min (max lunar_day 1) 30
  if 2 ≤ bureau ∧ bureau ≤ 6 then ziWeiPosition bureau day.toNat else 2

/-- Modelled from the spec §4.2 pseudocode for the primary-anchor placement
rule (the quotient/remainder rule with parity-dependent direction),
transcribed from the spec's own variable names, to be compared with the
engine's `ziWeiPosition`. -/
def ziWeiSpecRule (bureau lunarDay : Nat) : Nat :=
  let TIGER_1BASED : Int := 3
  let quotient := lunarDay / bureau
  let remainder := lunarDay % bureau
  let position_1based : Int :=
    if remainder = 0 then
      TIGER_1BASED + (quotient : Int) - 1
    else
      let addOn : Int := (bureau : Int) - (remainder : Int)
      let newQuotient := quotient + 1
      let basePosition : Int := TIGER_1BASED + (newQuotient : Int) - 1
      if newQuotient % 2 = 1 then basePosition + addOn
      else basePosition - addOn
  ((position_1based - 1) % 12).toNat

/- ----------------------------------------------------------------
   fate_engine.py : Tian Fu (secondary anchor) table
   ---------------------------------------------------------------- -/

/-- `FateEngine.TIAN_FU_MAP` (fate_engine.py lines 180-193), the fixed
12-entry primary-anchor-index → secondary-anchor-index table. -/
def TIAN_FU_MAP : List (Nat × Nat) :=
  [(0, 4), (1, 3), (2, 2), (3, 1), (4, 0), (5, 11),
   (6, 10), (7, 9), (8, 8), (9, 7), (10, 6), (11, 5)]

/-- `FateEngine.get_tian_fu_location` (fate_engine.py lines 195-208):
dict-`get` with default 4. -/
def get_tian_fu_location (zi_wei_idx : Nat) : Nat :=
  ((TIAN_FU_MAP.lookup zi_wei_idx).getD 4)

/- ----------------------------------------------------------------
   fate_engine.py : full 14-star placement
   ---------------------------------------------------------------- -/

/-- The 14 major stars, in the order they are written in
`FateEngine.place_all_stars`: 紫微 天機 太陽 武曲 天同 廉貞 /
天府 太陰 貪狼 巨門 天相 天梁 七殺 破軍. -/
inductive Star
  | ziWei
  | tianJi
  | taiYang
  | wuQu
  | tianTong
  | lianZhen
  | tianFu
  | taiYin
  | tanLang
  | juMen
  | tianXiang
  | tianLiang
  | qiSha
  | poJun
  deriving DecidableEq, Repr

instance : Fintype Star :=
  ⟨⟨{.ziWei, .tianJi, .taiYang, .wuQu, .tianTong, .lianZhen, .tianFu, .taiYin,
     .tanLang, .juMen, .tianXiang, .tianLiang, .qiSha, .poJun}, by decide⟩,
   by intro x; cases x <;> decide⟩

/-- `FateEngine.place_all_stars` (fate_engine.py lines 210-237): the
position assigned to each of the 14 major stars from the two anchor
indices.  The 紫微-group offsets are Python `(zi_wei_idx - k) % 12`
(modelled with `Int.emod`), the 天府-group offsets are `(tian_fu_idx + k) % 12`. -/
def place_all_stars (zi_wei_idx tian_fu_idx : Nat) : Star → Nat
  | .ziWei => zi_wei_idx
  | .tianJi => (((zi_wei_idx : Int) - 1) % 12).toNat
  | .taiYang => (((zi_wei_idx : Int) - 3) % 12).toNat
  | .wuQu => (((zi_wei_idx : Int) - 4) % 12).toNat
  | .tianTong => (((zi_wei_idx : Int) - 5) % 12).toNat
  | .lianZhen => (((zi_wei_idx : Int) - 8) % 12).toNat
  | .tianFu => tian_fu_idx
  | .taiYin => (tian_fu_idx + 1) % 12
  | .tanLang => (tian_fu_idx + 2) % 12
  | .juMen => (tian_fu_idx + 3) % 12
  | .tianXiang => (tian_fu_idx + 4) % 12
  | .tianLiang => (tian_fu_idx + 5) % 12
  | .qiSha => (tian_fu_idx + 6) % 12
  | .poJun => (tian_fu_idx + 10) % 12

/- ----------------------------------------------------------------
   fate_engine.py : WU_XING_JU bureau table
   ---------------------------------------------------------------- -/

/-- The 10 heavenly stems 甲乙丙丁戊己庚辛壬癸 (`FateEngine.STEMS`). -/
inductive Stem
  | jia
  | yi
  | bing
  | ding
  | wu
  | ji
  | geng
  | xin
  | ren
  | gui
  deriving DecidableEq, Repr

instance : Fintype Stem :=
  ⟨⟨{.jia, .yi, .bing, .ding, .wu, .ji, .geng, .xin, .ren, .gui}, by decide⟩,
   by intro x; cases x <;> decide⟩

/-- The 12 earthly branches 子丑寅卯辰巳午未申酉戌亥 (`FateEngine.BRANCHES`). -/
inductive Branch
  | zi
  | chou
  | yin
  | mao
  | chen
  | si
  | wu
  | wei
  | shen
  | you
  | xu
  | hai
  deriving DecidableEq, Repr

instance : Fintype Branch :=
  ⟨⟨{.zi, .chou, .yin, .mao, .chen, .si, .wu, .wei, .shen, .you, .xu, .hai}, by decide⟩,
   by intro x; cases x <;> decide⟩

/-- `FateEngine.WU_XING_JU` (fate_engine.py lines 62-88): the static bureau
table keyed by (year stem, life-palace branch), transcribed entry by entry
in source order.  Keys are two-character strings in the source ("甲子" etc.);
here they are (Stem, Branch) pairs. -/
def WU_XING_JU : List ((Stem × Branch) × Nat) :=
  [((Stem.jia, Branch.zi), 2), ((Stem.jia, Branch.chou), 6), ((Stem.jia, Branch.yin), 6), ((Stem.jia, Branch.mao), 5),
   ((Stem.jia, Branch.chen), 5), ((Stem.jia, Branch.si), 3), ((Stem.jia, Branch.wu), 3), ((Stem.jia, Branch.wei), 5),
   ((Stem.jia, Branch.shen), 5), ((Stem.jia, Branch.you), 4), ((Stem.jia, Branch.xu), 4), ((Stem.jia, Branch.hai), 2),
   ((Stem.ji, Branch.zi), 2), ((Stem.ji, Branch.chou), 6), ((Stem.ji, Branch.yin), 6), ((Stem.ji, Branch.mao), 5),
   ((Stem.ji, Branch.chen), 5), ((Stem.ji, Branch.si), 3), ((Stem.ji, Branch.wu), 3), ((Stem.ji, Branch.wei), 5),
   ((Stem.ji, Branch.shen), 5), ((Stem.ji, Branch.you), 4), ((Stem.ji, Branch.xu), 4), ((Stem.ji, Branch.hai), 2),
   ((Stem.yi, Branch.zi), 4), ((Stem.yi, Branch.chou), 4), ((Stem.yi, Branch.yin), 2), ((Stem.yi, Branch.mao), 2),
   ((Stem.yi, Branch.chen), 6), ((Stem.yi, Branch.si), 6), ((Stem.yi, Branch.wu), 5), ((Stem.yi, Branch.wei), 5),
   ((Stem.yi, Branch.shen), 3), ((Stem.yi, Branch.you), 3), ((Stem.yi, Branch.xu), 5), ((Stem.yi, Branch.hai), 5),
   ((Stem.geng, Branch.zi), 4), ((Stem.geng, Branch.chou), 4), ((Stem.geng, Branch.yin), 2), ((Stem.geng, Branch.mao), 2),
   ((Stem.geng, Branch.chen), 6), ((Stem.geng, Branch.si), 6), ((Stem.geng, Branch.wu), 5), ((Stem.geng, Branch.wei), 5),
   ((Stem.geng, Branch.shen), 3), ((Stem.geng, Branch.you), 3), ((Stem.geng, Branch.xu), 5), ((Stem.geng, Branch.hai), 5),
   ((Stem.bing, Branch.zi), 5), ((Stem.bing, Branch.chou), 5), ((Stem.bing, Branch.yin), 4), ((Stem.bing, Branch.mao), 4),
   ((Stem.bing, Branch.chen), 2), ((Stem.bing, Branch.si), 2), ((Stem.bing, Branch.wu), 6), ((Stem.bing, Branch.wei), 6),
   ((Stem.bing, Branch.shen), 5), ((Stem.bing, Branch.you), 5), ((Stem.bing, Branch.xu), 3), ((Stem.bing, Branch.hai), 3),
   ((Stem.xin, Branch.zi), 5), ((Stem.xin, Branch.chou), 5), ((Stem.xin, Branch.yin), 4), ((Stem.xin, Branch.mao), 4),
   ((Stem.xin, Branch.chen), 2), ((Stem.xin, Branch.si), 2), ((Stem.xin, Branch.wu), 6), ((Stem.xin, Branch.wei), 6),
   ((Stem.xin, Branch.shen), 5), ((Stem.xin, Branch.you), 5), ((Stem.xin, Branch.xu), 3), ((Stem.xin, Branch.hai), 3),
   ((Stem.ding, Branch.zi), 3), ((Stem.ding, Branch.chou), 3), ((Stem.ding, Branch.yin), 5), ((Stem.ding, Branch.mao), 5),
   ((Stem.ding, Branch.chen), 4), ((Stem.ding, Branch.si), 4), ((Stem.ding, Branch.wu), 2), ((Stem.ding, Branch.wei), 2),
   ((Stem.ding, Branch.shen), 6), ((Stem.ding, Branch.you), 6), ((Stem.ding, Branch.xu), 5), ((Stem.ding, Branch.hai), 5),
   ((Stem.ren, Branch.zi), 3), ((Stem.ren, Branch.chou), 3), ((Stem.ren, Branch.yin), 5), ((Stem.ren, Branch.mao), 5),
   ((Stem.ren, Branch.chen), 4), ((Stem.ren, Branch.si), 4), ((Stem.ren, Branch.wu), 2), ((Stem.ren, Branch.wei), 2),
   ((Stem.ren, Branch.shen), 6), ((Stem.ren, Branch.you), 6), ((Stem.ren, Branch.xu), 5), ((Stem.ren, Branch.hai), 5),
   ((Stem.wu, Branch.zi), 6), ((Stem.wu, Branch.chou), 6), ((Stem.wu, Branch.yin), 5), ((Stem.wu, Branch.mao), 5),
   ((Stem.wu, Branch.chen), 3), ((Stem.wu, Branch.si), 3), ((Stem.wu, Branch.wu), 5), ((Stem.wu, Branch.wei), 5),
   ((Stem.wu, Branch.shen), 2), ((Stem.wu, Branch.you), 2), ((Stem.wu, Branch.xu), 6), ((Stem.wu, Branch.hai), 6),
   ((Stem.gui, Branch.zi), 6), ((Stem.gui, Branch.chou), 6), ((Stem.gui, Branch.yin), 5), ((Stem.gui, Branch.mao), 5),
   ((Stem.gui, Branch.chen), 3), ((Stem.gui, Branch.si), 3), ((Stem.gui, Branch.wu), 5), ((Stem.gui, Branch.wei), 5),
   ((Stem.gui, Branch.shen), 2), ((Stem.gui, Branch.you), 2), ((Stem.gui, Branch.xu), 6), ((Stem.gui, Branch.hai), 6)]

/- ----------------------------------------------------------------
   alchemist.py : imbalance matrix and base remedy
   ---------------------------------------------------------------- -/

/-- One value of `Alchemist.IMBALANCE_MATRIX`: bilingual description plus
remedy element list. -/
structure ImbalanceEntry where
  en : String
  zh : String
  remedy : List Element
  deriving DecidableEq, Repr

/-- `Alchemist.IMBALANCE_MATRIX` (alchemist.py lines 54-75): the 20-entry
table keyed by the ordered pair (user element, environment element),
transcribed entry by entry in source order. -/
def IMBALANCE_MATRIX : List ((Element × Element) × ImbalanceEntry) :=
  [((.metal, .fire),
    ⟨"Metal melting in Fire - structure dissolving under pressure",
     "金逢火煉 - 過度壓力消融本質結構", [.water, .earth]⟩),
   ((.metal, .water),
    ⟨"Metal freezing in Water - clarity trapped in cold stillness",
     "金沉水底 - 清明之質困於寒滯", [.fire, .earth]⟩),
   ((.metal, .wood),
    ⟨"Metal cutting Wood - excessive control causing friction",
     "金木相剋 - 過度控制引發衝突", [.water]⟩),
   ((.metal, .earth),
    ⟨"Metal buried in Earth - potential hidden, waiting to shine",
     "金埋土中 - 潛能深藏，待時而發", [.fire, .water]⟩),
   ((.wood, .metal),
    ⟨"Wood cut by Metal - growth stunted by harsh constraints",
     "木受金傷 - 成長受阻於嚴苛約束", [.water, .fire]⟩),
   ((.wood, .fire),
    ⟨"Wood feeding Fire - energy depleting through overgiving",
     "木火通明 - 過度付出耗損元氣", [.water, .earth]⟩),
   ((.wood, .water),
    ⟨"Wood drowning in Water - excessive emotion stifling action",
     "水多木漂 - 情感泛濫阻礙行動", [.fire, .earth]⟩),
   ((.wood, .earth),
    ⟨"Wood piercing Earth - conflict between growth and stability",
     "木剋土虛 - 成長與穩定之間的矛盾", [.metal, .fire]⟩),
   ((.water, .fire),
    ⟨"Water evaporating in Fire - wisdom lost to passion",
     "水火相激 - 智慧散於熱情之中", [.metal, .wood]⟩),
   ((.water, .earth),
    ⟨"Water dammed by Earth - flow blocked, stagnation forms",
     "土來剋水 - 流動受阻，停滯成形", [.wood, .metal]⟩),
   ((.water, .metal),
    ⟨"Water chilled by Metal - too much clarity, frozen intuition",
     "金水太過 - 過度清明，直覺凍結", [.fire, .wood]⟩),
   ((.water, .wood),
    ⟨"Water nurturing Wood - giving without receiving",
     "水生木旺 - 付出未得回報", [.metal, .earth]⟩),
   ((.fire, .water),
    ⟨"Fire extinguished by Water - passion quenched by cold logic",
     "水來滅火 - 熱情被冷靜邏輯澆熄", [.wood, .earth]⟩),
   ((.fire, .metal),
    ⟨"Fire melting Metal - destruction through transformation",
     "火煉金銷 - 蛻變中的毀滅", [.earth, .water]⟩),
   ((.fire, .earth),
    ⟨"Fire exhausted into Earth - burnout from overproduction",
     "火生土晦 - 過度產出導致倦怠", [.wood, .metal]⟩),
   ((.fire, .wood),
    ⟨"Fire consuming Wood - growth sacrificed for illumination",
     "木火焚身 - 成長犧牲於光明", [.water, .earth]⟩),
   ((.earth, .wood),
    ⟨"Earth penetrated by Wood - stability disrupted by change",
     "木剋土動 - 穩定被變化打破", [.metal, .fire]⟩),
   ((.earth, .water),
    ⟨"Earth eroded by Water - foundation slowly washing away",
     "水多土流 - 根基緩緩流失", [.fire, .metal]⟩),
   ((.earth, .fire),
    ⟨"Earth receiving Fire - absorption without action",
     "火生土滯 - 吸收而不作為", [.metal, .wood]⟩),
   ((.earth, .metal),
    ⟨"Earth depleted by Metal - giving structure drains resources",
     "土生金洩 - 付出結構耗損資源", [.fire, .water]⟩)]

/-- `Alchemist._get_generating_element` (alchemist.py lines 379-387): the
element that generates the given one (its parent in the generation cycle). -/
def get_generating_element : Element → Element
  | .metal => .earth
  | .water => .metal
  | .wood => .water
  | .fire => .wood
  | .earth => .fire

/-- `Alchemist._find_weakness_remedy` (alchemist.py lines 371-377), remedy
field only: `[fate.weakest_element, fate.inherent_element.generates]`. -/
def find_weakness_remedy (weakest inherent : Element) : List Element :=
  [weakest, inherent.generates]

/-- The base remedy step of `Alchemist.diagnose` (alchemist.py lines
113-117): look the ordered pair (user element, environment element) up in
`IMBALANCE_MATRIX`; on a miss fall back to `_find_weakness_remedy`
(whose `fate.inherent_element` is the same `user` element that
`diagnose` read from `fate.inherent_element`). -/
def baseRemedy (user env weakest : Element) : List Element :=
  match IMBALANCE_MATRIX.lookup (user, env) with
  | some entry => entry.remedy
  | none => find_weakness_remedy weakest user

/- ----------------------------------------------------------------
   alchemist.py : environment scorer
   ---------------------------------------------------------------- -/

/-- The weather fields read by `_calculate_combined_environment_element`:
`temperature_celsius` and `humidity_percent`, modelled over ℚ. -/
structure Weather where
  temperature : ℚ
  humidity : ℚ
  deriving DecidableEq

/-- The score accumulated for element `e` by
`Alchemist._calculate_combined_environment_element` (alchemist.py lines
150-217).  `m` is the machine-dominant element
(`machine_env.dominant_environment_element`); `w` is the optional weather
reading; `dir` models the optional compass: `none` = no compass data,
`some none` = compass present but direction not in `DIRECTION_ELEMENTS`,
`some (some d)` = direction mapped to element `d`.  Each branch mirrors the
source's additions into `element_scores`. -/
def envScore (m : Element) (w : Option Weather) (dir : Option (Option Element))
    (e : Element) : ℚ :=
  (if e = m then 30/100 else 0)
  + (match w with
     | none => if e = .earth then 35/100 else 0
     | some wd =>
       (if wd.temperature ≥ 30 then (if e = .fire then 35/100 else 0)
        else if wd.temperature ≤ 10 then (if e = .water then 35/100 else 0)
        else if wd.temperature > 20 then
          (if e = .fire then 15/100 else 0) + (if e = .earth then 20/100 else 0)
        else
          (if e = .water then 15/100 else 0) + (if e = .metal then 20/100 else 0))
       + (if wd.humidity ≥ 70 then (if e = .water then 10/100 else 0)
          else if wd.humidity ≤ 30 then
            (if e = .fire then 5/100 else 0) + (if e = .metal then 5/100 else 0)
          else 0))
  + (match dir with
     | none => if e = .earth then 35/100 else 0
     | some none => if e = .earth then 35/100 else 0
     | some (some d) => if e = d then 35/100 else 0)

/-- Sum of the five per-element scores (iterating over the elements in
`models.py` declaration order, like `{e: 0.0 for e in Element}`). -/
def envScoreTotal (m : Element) (w : Option Weather)
    (dir : Option (Option Element)) : ℚ :=
  (elementList.map (envScore m w dir)).sum

/-- The humidity surcharge of the environment scorer: 0 with no weather
reading or moderate humidity, 1/10 when the humidity reading is ≥ 70
(+0.10 Water) or ≤ 30 (+0.05 Fire and +0.05 Metal). -/
def humidityExtra : Option Weather → ℚ
  | none => 0
  | some wd => if wd.humidity ≥ 70 ∨ wd.humidity ≤ 30 then 1/10 else 0

/- ----------------------------------------------------------------
   alchemist.py : remedy adjustment
   ---------------------------------------------------------------- -/

/-- `temperature_influence` values produced by
`Alchemist._analyze_real_environment`. -/
inductive TempInfluence
  | hot
  | cold
  | moderate
  deriving DecidableEq, Repr

/-- `humidity_influence` values produced by
`Alchemist._analyze_real_environment`. -/
inductive HumidityInfluence
  | wet
  | dry
  | moderate
  deriving DecidableEq, Repr

/-- The environment-modifier fields of `_analyze_real_environment` that
`_adjust_remedy_for_environment` reads. -/
structure EnvModifiers where
  temperature_influence : TempInfluence
  humidity_influence : HumidityInfluence
  direction_element : Option Element
  deriving DecidableEq

/-- Temperature stage of `Alchemist._adjust_remedy_for_environment`
(alchemist.py lines 299-316). -/
def tempAdjust (t : TempInfluence) (user : Element) (r : List Element) :
    List Element :=
  match t with
  | .hot =>
    if Element.water ∉ r ∧ Element.fire ∈ r then r ++ [Element.water]
    else if Element.water ∉ r then
      if user ≠ Element.fire then r ++ [Element.water] else r
    else r
  | .cold =>
    if Element.fire ∉ r ∧ Element.water ∈ r then r ++ [Element.fire]
    else if Element.fire ∉ r then
      if user ≠ Element.water then r ++ [Element.fire] else r
    else r
  | .moderate => r

/-- Humidity stage of `Alchemist._adjust_remedy_for_environment`
(alchemist.py lines 318-322). -/
def humidityAdjust (h : HumidityInfluence) (r : List Element) : List Element :=
  match h with
  | .wet => if Element.earth ∉ r ∧ r.length < 3 then r ++ [Element.earth] else r
  | .dry => r
  | .moderate => r

/-- Direction stage of `Alchemist._adjust_remedy_for_environment`
(alchemist.py lines 324-332). -/
def directionAdjust (d : Option Element) (user : Element) (r : List Element) :
    List Element :=
  match d with
  | some de =>
    if de.controls = user then
      let protector := get_generating_element user
      if protector ∉ r ∧ r.length < 3 then r ++ [protector] else r
    else r
  | none => r

/-- `Alchemist._adjust_remedy_for_environment` (alchemist.py lines
283-335): copy the base remedy, run the temperature, humidity and
direction stages in source order, then `remedy[:3] if remedy else
[self._get_generating_element(user_element)]`. -/
def adjust_remedy_for_environment (base : List Element) (m : EnvModifiers)
    (user : Element) : List Element :=
  let r := directionAdjust m.direction_element user
    (humidityAdjust m.humidity_influence
      (tempAdjust m.temperature_influence user base))
  if r = [] then [get_generating_element user] else r.take 3

/-- Remedy list stored for the ordered pair `(u, v)` in
`IMBALANCE_MATRIX` (empty when the key is absent). -/
def lookupRemedy (u v : Element) : List Element :=
  match IMBALANCE_MATRIX.lookup (u, v) with
  | some entry => entry.remedy
  | none => []

/- ----------------------------------------------------------------
   Helper lemmas
   ---------------------------------------------------------------- -/

theorem emod12_toNat_lt (p : Int) : (p % 12).toNat < 12 := by
  have h1 := Int.emod_nonneg p (by norm_num : (12 : Int) ≠ 0)
  have h2 := Int.emod_lt_of_pos p (by norm_num : (0 : Int) < 12)
  omega

theorem ziWeiPosition_lt (b d : Nat) : ziWeiPosition b d < 12 := by
  simp only [ziWeiPosition]
  exact emod12_toNat_lt _

/- ----------------------------------------------------------------
   Claim theorems
   ---------------------------------------------------------------- -/

/-- C1: for every bureau in {2,…,6} and lunar day in [1,30] the engine's
primary-anchor (Zi Wei) placement (`get_zi_wei_location`, backed by
`ZI_WEI_TABLE` built in `_build_zi_wei_table`) equals the spec's
quotient/remainder rule `ziWeiSpecRule`; the 0-based result always lies in
[0,11]; bureau=3, day=9 yields index 4 and bureau=2, day=1 yields index 3. -/
theorem ziWei_matches_spec_rule (b d : Nat) (hb1 : 2 ≤ b) (hb2 : b ≤ 6)
    (hd1 : 1 ≤ d) (hd2 : d ≤ 30) :
    get_zi_wei_location (d : Int) b = ziWeiSpecRule b d ∧
    get_zi_wei_location (d : Int) b ≤ 11 ∧
    get_zi_wei_location 9 3 = 4 ∧ get_zi_wei_location 1 2 = 3 := by
  have key : ∀ b' < 7, 2 ≤ b' → ∀ d' < 31, 1 ≤ d' →
      ziWeiPosition b' d' = ziWeiSpecRule b' d' ∧ ziWeiPosition b' d' ≤ 11 := by
    decide
  have hin : get_zi_wei_location (d : Int) b = ziWeiPosition b d := by
    simp only [get_zi_wei_location, if_pos (And.intro hb1 hb2)]
    congr 1
    omega
  have hbd := key b (by omega) hb1 d (by omega) hd1
  refine ⟨hin ▸ hbd.1, hin ▸ hbd.2, ?_, ?_⟩ <;> decide

theorem ziWei_matches_spec_rule_witness :
    (2 ≤ 3 ∧ 3 ≤ 6 ∧ 1 ≤ 9 ∧ 9 ≤ 30) ∧
    (get_zi_wei_location ((9 : Nat) : Int) 3 = ziWeiSpecRule 3 9 ∧
     get_zi_wei_location ((9 : Nat) : Int) 3 ≤ 11 ∧
     get_zi_wei_location 9 3 = 4 ∧ get_zi_wei_location 1 2 = 3) :=
  ⟨by decide,
   ziWei_matches_spec_rule 3 9 (by decide) (by decide) (by decide) (by decide)⟩

/-- C4 counterexample: the claim says a call with bureau outside
{2,3,4,5,6} or lunar day outside [1,30] fails fast and does not return a
star position; but `get_zi_wei_location` is total — with the invalid
bureau 7 it returns the dict-`get` default 2, and with the out-of-range
day 99 it clamps to 30 and returns the valid position 11.  In both cases
a star position in [0,11] is returned and no error is raised. -/
theorem zi_wei_lookup_failfast_counterexample :
    get_zi_wei_location 9 7 = 2 ∧ get_zi_wei_location 9 7 < 12 ∧
    get_zi_wei_location 99 3 = 11 ∧ get_zi_wei_location 99 3 < 12 := by
  decide

/-- C4 amended: out-of-range inputs are recovered from, not rejected: the
lunar day is clamped into [1,30] before the table lookup, a bureau outside
{2,3,4,5,6} yields the default position 2, and the lookup always returns a
star position in [0,11]. -/
theorem zi_wei_lookup_total (day : Int) (bureau : Nat) :
    get_zi_wei_location day bureau < 12 ∧
    get_zi_wei_location day bureau =
      get_zi_wei_location (min (max day 1) 30) bureau ∧
    ((bureau < 2 ∨ 6 < bureau) → get_zi_wei_location day bureau = 2) := by
  refine ⟨?_, ?_, ?_⟩
  · simp only [get_zi_wei_location]
    split
    · exact ziWeiPosition_lt _ _
    · omega
  · simp only [get_zi_wei_location]
    have h : min (max (min (max day 1) 30) 1) 30 = min (max day 1) 30 := by omega
    rw [h]
  · intro h
    simp only [get_zi_wei_location]
    rw [if_neg (by omega)]

theorem zi_wei_lookup_total_witness :
    get_zi_wei_location 9 7 < 12 ∧ (7 < 2 ∨ 6 < 7) ∧
    get_zi_wei_location 9 7 = 2 :=
  ⟨(zi_wei_lookup_total 9 7).1, by decide,
   (zi_wei_lookup_total 9 7).2.2 (by decide)⟩

/-- C6: in the 12-entry `TIAN_FU_MAP`, indices 2 and 8 map to themselves
and every other index maps to a different index, so the indices in [0,11]
whose entry is a fixed point are exactly 2 and 8. -/
theorem tianFu_two_fixed_points :
    TIAN_FU_MAP.length = 12 ∧
    TIAN_FU_MAP.lookup 2 = some 2 ∧ TIAN_FU_MAP.lookup 8 = some 8 ∧
    ((List.range 12).filter fun i => get_tian_fu_location i == i) = [2, 8] := by
  decide

/-- C10: the secondary-anchor table satisfies
`TIAN_FU_MAP(i) = (4 - i) mod 12` for every index i in [0,11], hence it is
an involution: applying it twice returns the original index. -/
theorem tianFu_formula_involution (i : Nat) (h : i < 12) :
    get_tian_fu_location i = ((4 - (i : Int)) % 12).toNat ∧
    get_tian_fu_location (get_tian_fu_location i) = i := by
  have key : ∀ j < 12, get_tian_fu_location j = ((4 - (j : Int)) % 12).toNat ∧
      get_tian_fu_location (get_tian_fu_location j) = j := by decide
  exact key i h

theorem tianFu_formula_involution_witness :
    5 < 12 ∧ (get_tian_fu_location 5 = ((4 - ((5 : Nat) : Int)) % 12).toNat ∧
      get_tian_fu_location (get_tian_fu_location 5) = 5) :=
  ⟨by decide, tianFu_formula_involution 5 (by decide)⟩

set_option synthInstance.maxSize 2000 in
/-- C7: `place_all_stars` assigns the six primary-group stars at offsets
{0,-1,-3,-4,-5,-8} mod 12 from the primary anchor (紫微, 天機, 太陽, 武曲,
天同, 廉貞 in that order; a negative offset -k appears here as +(12-k) mod
12) and the eight secondary-group stars at offsets
{0,+1,+2,+3,+4,+5,+6,+10} mod 12 from the secondary anchor (天府, 太陰,
貪狼, 巨門, 天相, 天梁, 七殺, 破軍 in that order); offset 0 places each
anchor star at its own anchor index, and every position is in [0,11]. -/
theorem place_all_stars_offsets (z t : Nat) (hz : z < 12) (ht : t < 12) :
    place_all_stars z t .ziWei = z ∧
    place_all_stars z t .tianJi = (z + 12 - 1) % 12 ∧
    place_all_stars z t .taiYang = (z + 12 - 3) % 12 ∧
    place_all_stars z t .wuQu = (z + 12 - 4) % 12 ∧
    place_all_stars z t .tianTong = (z + 12 - 5) % 12 ∧
    place_all_stars z t .lianZhen = (z + 12 - 8) % 12 ∧
    place_all_stars z t .tianFu = t ∧
    place_all_stars z t .taiYin = (t + 1) % 12 ∧
    place_all_stars z t .tanLang = (t + 2) % 12 ∧
    place_all_stars z t .juMen = (t + 3) % 12 ∧
    place_all_stars z t .tianXiang = (t + 4) % 12 ∧
    place_all_stars z t .tianLiang = (t + 5) % 12 ∧
    place_all_stars z t .qiSha = (t + 6) % 12 ∧
    place_all_stars z t .poJun = (t + 10) % 12 ∧
    ∀ s : Star, place_all_stars z t s < 12 := by
  revert hz ht
  have key : ∀ z' < 12, ∀ t' < 12,
      place_all_stars z' t' .ziWei = z' ∧
      place_all_stars z' t' .tianJi = (z' + 12 - 1) % 12 ∧
      place_all_stars z' t' .taiYang = (z' + 12 - 3) % 12 ∧
      place_all_stars z' t' .wuQu = (z' + 12 - 4) % 12 ∧
      place_all_stars z' t' .tianTong = (z' + 12 - 5) % 12 ∧
      place_all_stars z' t' .lianZhen = (z' + 12 - 8) % 12 ∧
      place_all_stars z' t' .tianFu = t' ∧
      place_all_stars z' t' .taiYin = (t' + 1) % 12 ∧
      place_all_stars z' t' .tanLang = (t' + 2) % 12 ∧
      place_all_stars z' t' .juMen = (t' + 3) % 12 ∧
      place_all_stars z' t' .tianXiang = (t' + 4) % 12 ∧
      place_all_stars z' t' .tianLiang = (t' + 5) % 12 ∧
      place_all_stars z' t' .qiSha = (t' + 6) % 12 ∧
      place_all_stars z' t' .poJun = (t' + 10) % 12 ∧
      ∀ s : Star, place_all_stars z' t' s < 12 := by decide
  intro hz ht
  exact key z hz t ht

theorem place_all_stars_offsets_witness :
    4 < 12 ∧ 6 < 12 ∧
    (place_all_stars 4 6 .ziWei = 4 ∧
     place_all_stars 4 6 .tianJi = (4 + 12 - 1) % 12 ∧
     place_all_stars 4 6 .taiYang = (4 + 12 - 3) % 12 ∧
     place_all_stars 4 6 .wuQu = (4 + 12 - 4) % 12 ∧
     place_all_stars 4 6 .tianTong = (4 + 12 - 5) % 12 ∧
     place_all_stars 4 6 .lianZhen = (4 + 12 - 8) % 12 ∧
     place_all_stars 4 6 .tianFu = 6 ∧
     place_all_stars 4 6 .taiYin = (6 + 1) % 12 ∧
     place_all_stars 4 6 .tanLang = (6 + 2) % 12 ∧
     place_all_stars 4 6 .juMen = (6 + 3) % 12 ∧
     place_all_stars 4 6 .tianXiang = (6 + 4) % 12 ∧
     place_all_stars 4 6 .tianLiang = (6 + 5) % 12 ∧
     place_all_stars 4 6 .qiSha = (6 + 6) % 12 ∧
     place_all_stars 4 6 .poJun = (6 + 10) % 12 ∧
     ∀ s : Star, place_all_stars 4 6 s < 12) :=
  ⟨by decide, by decide, place_all_stars_offsets 4 6 (by decide) (by decide)⟩

/-- C8: the static bureau table `WU_XING_JU` has an entry for every one of
the 10×12 = 120 (year stem, life-palace branch) combinations, its keys are
pairwise distinct, and every stored bureau value lies in {2,3,4,5,6}, so a
lookup miss never occurs for a well-formed key. -/
theorem wuXingJu_complete :
    WU_XING_JU.length = 120 ∧
    (WU_XING_JU.map Prod.fst).Nodup ∧
    ∀ s : Stem, ∀ b : Branch,
      (WU_XING_JU.lookup (s, b)).isSome = true ∧
      2 ≤ (WU_XING_JU.lookup (s, b)).getD 0 ∧
      (WU_XING_JU.lookup (s, b)).getD 0 ≤ 6 := by
  decide

/-- C9: `IMBALANCE_MATRIX` has exactly 20 entries with pairwise-distinct
keys, a key is present exactly when the two elements of the ordered pair
differ (no self-pairs), and every entry's remedy list has length 1 or 2
and contains no element equal to either component of its key. -/
theorem imbalance_matrix_wellformed :
    IMBALANCE_MATRIX.length = 20 ∧
    (IMBALANCE_MATRIX.map Prod.fst).Nodup ∧
    (∀ u v : Element, (IMBALANCE_MATRIX.lookup (u, v)).isSome = (u != v)) ∧
    ∀ u v : Element, u ≠ v →
      ((lookupRemedy u v).length = 1 ∨ (lookupRemedy u v).length = 2) ∧
      ∀ x ∈ lookupRemedy u v, x ≠ u ∧ x ≠ v := by
  decide

theorem imbalance_matrix_wellformed_witness :
    Element.metal ≠ Element.fire ∧
    (((lookupRemedy .metal .fire).length = 1 ∨
      (lookupRemedy .metal .fire).length = 2) ∧
     ∀ x ∈ lookupRemedy .metal .fire, x ≠ Element.metal ∧ x ≠ Element.fire) :=
  ⟨by decide, imbalance_matrix_wellformed.2.2.2 .metal .fire (by decide)⟩

/-- C2 counterexample: with machine element Wood, a weather reading of
temperature 20 and humidity 70, and no facing direction, the five
per-element scores of `_calculate_combined_environment_element` sum to
11/10, not 1: the humidity branch adds 0.10 on top of the
0.30 + 0.35 + 0.35 base weights. -/
theorem env_scores_sum_counterexample :
    envScoreTotal .wood (some ⟨20, 70⟩) none = 11/10 ∧
    envScoreTotal .wood (some ⟨20, 70⟩) none ≠ 1 := by
  constructor <;> simp +decide [envScoreTotal, envScore, elementList] <;> norm_num

set_option maxHeartbeats 2000000 in
/-- C2 amended: for every machine-dominant element, optional weather
reading and optional facing direction, the five per-element scores
accumulated by `_calculate_combined_environment_element` sum to exactly
1 plus the humidity surcharge: the sum is exactly 1 when weather is
absent or the humidity lies strictly between 30 and 70, and exactly 1.1
when a weather reading has humidity ≥ 70 or ≤ 30. -/
theorem env_scores_sum (m : Element) (w : Option Weather)
    (dir : Option (Option Element)) :
    envScoreTotal m w dir = 1 + humidityExtra w := by
  rcases w with _ | ⟨temp, hum⟩ <;>
    rcases dir with _ | (_ | e) <;>
    cases m <;>
    (try cases e) <;>
    simp [envScoreTotal, envScore, elementList, humidityExtra] <;>
    (try split_ifs) <;>
    first
    | (norm_num; done)
    | tauto

/-- C3 counterexample: the claim says the fallback base remedy's second
element is the element that GENERATES the user's inherent element
(`_get_generating_element`), but for inherent element Metal the code puts
`inherent_element.generates` = Water there, not Earth: with user = env =
Metal and weakest element Wood the base remedy is [Wood, Water], which
differs from the claimed [Wood, `get_generating_element` Metal] =
[Wood, Earth]. -/
theorem weakness_fallback_counterexample :
    baseRemedy .metal .metal .wood = [Element.wood, Element.water] ∧
    baseRemedy .metal .metal .wood ≠
      [Element.wood, get_generating_element Element.metal] := by
  decide

/-- C3 amended: whenever the user's element equals the environment element
(the 20-entry table has no entry for self-pairs), the base remedy produced
before any environmental adjustment is exactly [fate's weakest element,
the element that fate's inherent element generates under the fixed
generation cycle] — i.e. `inherent_element.generates`, the generation-cycle
child of the inherent element, not its parent. -/
theorem weakness_fallback_remedy :
    ∀ u w : Element,
      IMBALANCE_MATRIX.lookup (u, u) = none ∧
      baseRemedy u u w = [w, u.generates] := by
  decide

/- ----------------------------------------------------------------
   C5 development: shape and stability lemmas for the remedy
   adjustment stages
   ---------------------------------------------------------------- -/

theorem tempAdjust_shape (t : TempInfluence) (u : Element) (r : List Element) :
    tempAdjust t u r = r ∨ tempAdjust t u r = r ++ [Element.water] ∨
      tempAdjust t u r = r ++ [Element.fire] := by
  cases t <;> simp only [tempAdjust] <;> (try split_ifs) <;> tauto

theorem humidityAdjust_shape (h : HumidityInfluence) (r : List Element) :
    humidityAdjust h r = r ∨ humidityAdjust h r = r ++ [Element.earth] := by
  cases h <;> simp only [humidityAdjust] <;> (try split_ifs) <;> tauto

theorem directionAdjust_shape (d : Option Element) (u : Element)
    (r : List Element) :
    directionAdjust d u r = r ∨
      directionAdjust d u r = r ++ [get_generating_element u] := by
  cases d <;> simp only [directionAdjust] <;> (try split_ifs) <;> tauto

/- membership and length consequences of the shapes -/

theorem length_le_tempAdjust (t : TempInfluence) (u : Element)
    (r : List Element) : r.length ≤ (tempAdjust t u r).length := by
  rcases tempAdjust_shape t u r with h | h | h <;> simp [h]

theorem length_le_humidityAdjust (h : HumidityInfluence) (r : List Element) :
    r.length ≤ (humidityAdjust h r).length := by
  rcases humidityAdjust_shape h r with hs | hs <;> simp [hs]

theorem length_le_directionAdjust (d : Option Element) (u : Element)
    (r : List Element) : r.length ≤ (directionAdjust d u r).length := by
  rcases directionAdjust_shape d u r with hs | hs <;> simp [hs]

theorem mem_tempAdjust (t : TempInfluence) (u : Element) (r : List Element)
    (x : Element) (hx : x ∈ r) : x ∈ tempAdjust t u r := by
  rcases tempAdjust_shape t u r with h | h | h <;> simp [h, hx]

theorem mem_humidityAdjust (h : HumidityInfluence) (r : List Element)
    (x : Element) (hx : x ∈ r) : x ∈ humidityAdjust h r := by
  rcases humidityAdjust_shape h r with hs | hs <;> simp [hs, hx]

theorem mem_directionAdjust (d : Option Element) (u : Element)
    (r : List Element) (x : Element) (hx : x ∈ r) :
    x ∈ directionAdjust d u r := by
  rcases directionAdjust_shape d u r with hs | hs <;> simp [hs, hx]

theorem humidityAdjust_subset (h : HumidityInfluence) (r : List Element)
    (x : Element) (hx : x ∈ humidityAdjust h r) :
    x ∈ r ∨ x = Element.earth := by
  rcases humidityAdjust_shape h r with hs | hs <;> rw [hs] at hx
  · exact Or.inl hx
  · simp at hx
    tauto

theorem directionAdjust_subset (d : Option Element) (u : Element)
    (r : List Element) (x : Element) (hx : x ∈ directionAdjust d u r) :
    x ∈ r ∨ x = get_generating_element u := by
  rcases directionAdjust_shape d u r with hs | hs <;> rw [hs] at hx
  · exact Or.inl hx
  · simp at hx
    tauto

/- stages do nothing on lists that already have length ≥ 3 -/

theorem humidityAdjust_of_three (h : HumidityInfluence) (r : List Element)
    (hr : 3 ≤ r.length) : humidityAdjust h r = r := by
  cases h <;> simp only [humidityAdjust]
  rw [if_neg]
  rintro ⟨-, hlt⟩
  omega

theorem directionAdjust_of_three (d : Option Element) (u : Element)
    (r : List Element) (hr : 3 ≤ r.length) : directionAdjust d u r = r := by
  cases d with
  | none => rfl
  | some de =>
    simp only [directionAdjust]
    split_ifs with h1 h2
    · exfalso
      omega
    · rfl
    · rfl

/- second-pass no-op lemmas -/

theorem tempAdjust_hot_no (u : Element) (r : List Element)
    (hyp : Element.water ∈ r ∨ (Element.fire ∉ r ∧ u = Element.fire)) :
    tempAdjust .hot u r = r := by
  simp only [tempAdjust]
  split_ifs <;> first | rfl | (exfalso; tauto)

theorem tempAdjust_cold_no (u : Element) (r : List Element)
    (hyp : Element.fire ∈ r ∨ (Element.water ∉ r ∧ u = Element.water)) :
    tempAdjust .cold u r = r := by
  simp only [tempAdjust]
  split_ifs <;> first | rfl | (exfalso; tauto)

theorem directionAdjust_idem (d : Option Element) (u : Element)
    (r : List Element) :
    directionAdjust d u (directionAdjust d u r) = directionAdjust d u r := by
  cases d with
  | none => rfl
  | some de =>
    by_cases hc : de.controls = u
    · by_cases hcond : get_generating_element u ∉ r ∧ r.length < 3
      · have h1 : directionAdjust (some de) u r =
            r ++ [get_generating_element u] := by
          simp only [directionAdjust]
          rw [if_pos hc, if_pos hcond]
        rw [h1]
        simp only [directionAdjust]
        rw [if_pos hc, if_neg]
        rintro ⟨hmem, -⟩
        simp at hmem
      · have h1 : directionAdjust (some de) u r = r := by
          simp only [directionAdjust]
          rw [if_pos hc, if_neg hcond]
        rw [h1, h1]
    · have h1 : directionAdjust (some de) u r = r := by
        simp only [directionAdjust]
        rw [if_neg hc]
      rw [h1, h1]

theorem humidityAdjust_fix (h : HumidityInfluence) (d : Option Element)
    (u : Element) (r1 : List Element) :
    humidityAdjust h (directionAdjust d u (humidityAdjust h r1)) =
      directionAdjust d u (humidityAdjust h r1) := by
  cases h with
  | dry => rfl
  | moderate => rfl
  | wet =>
    by_cases hcond : Element.earth ∉ r1 ∧ r1.length < 3
    · have h2 : humidityAdjust .wet r1 = r1 ++ [Element.earth] := by
        simp only [humidityAdjust]
        rw [if_pos hcond]
      have he : Element.earth ∈ directionAdjust d u (humidityAdjust .wet r1) := by
        apply mem_directionAdjust
        rw [h2]
        simp
      simp only [humidityAdjust]
      rw [if_neg]
      rintro ⟨hne, -⟩
      exact hne he
    · have h2 : humidityAdjust .wet r1 = r1 := by
        simp only [humidityAdjust]
        rw [if_neg hcond]
      rw [h2]
      rcases not_and_or.mp hcond with hne | hlen
      · have he : Element.earth ∈ directionAdjust d u r1 :=
          mem_directionAdjust d u r1 _ (not_not.mp hne)
        simp only [humidityAdjust]
        rw [if_neg]
        rintro ⟨hne2, -⟩
        exact hne2 he
      · have h3 : 3 ≤ (directionAdjust d u r1).length := by
          have := length_le_directionAdjust d u r1
          omega
        exact humidityAdjust_of_three _ _ h3

theorem tempAdjust_fix (t : TempInfluence) (u : Element) (base : List Element)
    (h : HumidityInfluence) (d : Option Element) :
    tempAdjust t u
        (directionAdjust d u (humidityAdjust h (tempAdjust t u base))) =
      directionAdjust d u (humidityAdjust h (tempAdjust t u base)) := by
  cases t with
  | moderate => rfl
  | hot =>
    apply tempAdjust_hot_no
    by_cases hw : Element.water ∈ base
    · left
      exact mem_directionAdjust _ _ _ _
        (mem_humidityAdjust _ _ _ (mem_tempAdjust _ _ _ _ hw))
    · by_cases hf : Element.fire ∈ base
      · left
        have h1 : tempAdjust .hot u base = base ++ [Element.water] := by
          simp only [tempAdjust]
          rw [if_pos ⟨hw, hf⟩]
        apply mem_directionAdjust
        apply mem_humidityAdjust
        rw [h1]
        simp
      · by_cases hu : u = Element.fire
        · right
          refine ⟨?_, hu⟩
          have h1 : tempAdjust .hot u base = base :=
            tempAdjust_hot_no u base (Or.inr ⟨hf, hu⟩)
          intro hmem
          rcases directionAdjust_subset d u _ _ hmem with hmem2 | hge
          · rcases humidityAdjust_subset h _ _ hmem2 with hmem3 | heq
            · rw [h1] at hmem3
              exact hf hmem3
            · exact absurd heq (by decide)
          · rw [hu] at hge
            exact absurd hge (by decide)
        · left
          have h1 : tempAdjust .hot u base = base ++ [Element.water] := by
            simp only [tempAdjust]
            rw [if_neg (by tauto), if_pos hw, if_pos hu]
          apply mem_directionAdjust
          apply mem_humidityAdjust
          rw [h1]
          simp
  | cold =>
    apply tempAdjust_cold_no
    by_cases hf : Element.fire ∈ base
    · left
      exact mem_directionAdjust _ _ _ _
        (mem_humidityAdjust _ _ _ (mem_tempAdjust _ _ _ _ hf))
    · by_cases hw : Element.water ∈ base
      · left
        have h1 : tempAdjust .cold u base = base ++ [Element.fire] := by
          simp only [tempAdjust]
          rw [if_pos ⟨hf, hw⟩]
        apply mem_directionAdjust
        apply mem_humidityAdjust
        rw [h1]
        simp
      · by_cases hu : u = Element.water
        · right
          refine ⟨?_, hu⟩
          have h1 : tempAdjust .cold u base = base :=
            tempAdjust_cold_no u base (Or.inr ⟨hw, hu⟩)
          intro hmem
          rcases directionAdjust_subset d u _ _ hmem with hmem2 | hge
          · rcases humidityAdjust_subset h _ _ hmem2 with hmem3 | heq
            · rw [h1] at hmem3
              exact hw hmem3
            · exact absurd heq (by decide)
          · rw [hu] at hge
            exact absurd hge (by decide)
        · left
          have h1 : tempAdjust .cold u base = base ++ [Element.fire] := by
            simp only [tempAdjust]
            rw [if_neg (by tauto), if_pos hf, if_pos hu]
          apply mem_directionAdjust
          apply mem_humidityAdjust
          rw [h1]
          simp

/- an empty chain output forces an empty input at every stage -/

theorem tempAdjust_eq_nil (t : TempInfluence) (u : Element) (r : List Element)
    (h : tempAdjust t u r = []) : r = [] := by
  rcases tempAdjust_shape t u r with hs | hs | hs <;> rw [hs] at h
  · exact h
  · simp at h
  · simp at h

theorem humidityAdjust_eq_nil (hin : HumidityInfluence) (r : List Element)
    (h : humidityAdjust hin r = []) : r = [] := by
  rcases humidityAdjust_shape hin r with hs | hs <;> rw [hs] at h
  · exact h
  · simp at h

theorem directionAdjust_eq_nil (d : Option Element) (u : Element)
    (r : List Element) (h : directionAdjust d u r = []) : r = [] := by
  rcases directionAdjust_shape d u r with hs | hs <;> rw [hs] at h
  · exact h
  · simp at h

/- when a stage left the empty list unchanged, it also leaves the
fallback remedy [get_generating_element u] unchanged -/

theorem temp_nil_second (t : TempInfluence) (u : Element)
    (h : tempAdjust t u [] = []) :
    tempAdjust t u [get_generating_element u] = [get_generating_element u] := by
  cases t with
  | moderate => rfl
  | hot =>
    by_cases hu : u = Element.fire
    · subst hu
      decide
    · exfalso
      have hw : tempAdjust .hot u [] = [Element.water] := by
        simp only [tempAdjust]
        rw [if_neg (by simp), if_pos (by simp), if_pos hu]
        simp
      rw [hw] at h
      simp at h
  | cold =>
    by_cases hu : u = Element.water
    · subst hu
      decide
    · exfalso
      have hw : tempAdjust .cold u [] = [Element.fire] := by
        simp only [tempAdjust]
        rw [if_neg (by simp), if_pos (by simp), if_pos hu]
        simp
      rw [hw] at h
      simp at h

theorem hum_nil_second (hin : HumidityInfluence)
    (h : humidityAdjust hin [] = []) :
    ∀ r, humidityAdjust hin r = r := by
  cases hin with
  | dry => intro r; rfl
  | moderate => intro r; rfl
  | wet =>
    exfalso
    revert h
    decide

theorem dir_nil_second (d : Option Element) (u : Element)
    (h : directionAdjust d u [] = []) :
    directionAdjust d u [get_generating_element u] =
      [get_generating_element u] := by
  cases d with
  | none => rfl
  | some de =>
    by_cases hc : de.controls = u
    · exfalso
      have hg : directionAdjust (some de) u [] = [get_generating_element u] := by
        simp only [directionAdjust]
        rw [if_pos hc, if_pos (by simp)]
        simp
      rw [hg] at h
      simp at h
    · simp only [directionAdjust]
      rw [if_neg hc]

/-- C5: for every base remedy list, user element and fixed set of
environmental modifiers (temperature, humidity, direction),
`_adjust_remedy_for_environment` is idempotent — applying it twice with
unchanged modifiers yields the same list as applying it once — and the
adjusted remedy always has length between 1 and 3 inclusive. -/
theorem adjust_remedy_idempotent_and_bounded (base : List Element)
    (m : EnvModifiers) (user : Element) :
    adjust_remedy_for_environment (adjust_remedy_for_environment base m user)
        m user = adjust_remedy_for_environment base m user ∧
    1 ≤ (adjust_remedy_for_environment base m user).length ∧
    (adjust_remedy_for_environment base m user).length ≤ 3 := by
  rcases m with ⟨t, hin, d⟩
  simp only [adjust_remedy_for_environment]
  by_cases hnil :
      directionAdjust d user (humidityAdjust hin (tempAdjust t user base)) = []
  · have h2 : humidityAdjust hin (tempAdjust t user base) = [] :=
      directionAdjust_eq_nil _ _ _ hnil
    have h1 : tempAdjust t user base = [] := humidityAdjust_eq_nil _ _ h2
    have hb : base = [] := tempAdjust_eq_nil _ _ _ h1
    have h2n : humidityAdjust hin [] = [] := by
      rw [h1] at h2
      exact h2
    have h1n : tempAdjust t user [] = [] := by
      rw [hb] at h1
      exact h1
    have hniln : directionAdjust d user [] = [] := by
      rw [h1, h2n] at hnil
      exact hnil
    rw [if_pos hnil]
    have ht2 := temp_nil_second t user h1n
    have hh2 := hum_nil_second hin h2n
    have hd2 := dir_nil_second d user hniln
    rw [ht2, hh2, hd2]
    rw [if_neg (by simp)]
    exact ⟨rfl, by simp, by simp⟩
  · rw [if_neg hnil]
    refine ⟨?_, ?_, ?_⟩
    · by_cases hlen :
          (directionAdjust d user
            (humidityAdjust hin (tempAdjust t user base))).length ≤ 3
      · rw [List.take_of_length_le hlen]
        have htemp := tempAdjust_fix t user base hin d
        have hhum := humidityAdjust_fix hin d user (tempAdjust t user base)
        have hdir :=
          directionAdjust_idem d user (humidityAdjust hin (tempAdjust t user base))
        rw [htemp, hhum, hdir, if_neg hnil, List.take_of_length_le hlen]
      · push_neg at hlen
        have hy3 :
            ((directionAdjust d user
              (humidityAdjust hin (tempAdjust t user base))).take 3).length = 3 := by
          rw [List.length_take]
          omega
        obtain ⟨s, hs⟩ : ∃ s, tempAdjust t user
            ((directionAdjust d user
              (humidityAdjust hin (tempAdjust t user base))).take 3) =
            (directionAdjust d user
              (humidityAdjust hin (tempAdjust t user base))).take 3 ++ s := by
          rcases tempAdjust_shape t user
              ((directionAdjust d user
                (humidityAdjust hin (tempAdjust t user base))).take 3)
            with h | h | h
          · exact ⟨[], by simp [h]⟩
          · exact ⟨[Element.water], h⟩
          · exact ⟨[Element.fire], h⟩
        have hlen2 : 3 ≤ (tempAdjust t user
            ((directionAdjust d user
              (humidityAdjust hin (tempAdjust t user base))).take 3)).length := by
          rw [hs, List.length_append, hy3]
          omega
        rw [humidityAdjust_of_three _ _ hlen2, directionAdjust_of_three _ _ _ hlen2]
        rw [hs]
        rw [if_neg (by
          intro hcon
          have := congrArg List.length hcon
          rw [List.length_append, hy3] at this
          simp at this)]
        rw [List.take_append_eq_append_take, List.take_of_length_le (le_of_eq hy3),
          hy3]
        simp
    · have hpos : 0 < (directionAdjust d user
          (humidityAdjust hin (tempAdjust t user base))).length :=
        List.length_pos.mpr hnil
      rw [List.length_take]
      omega
    · rw [List.length_take]
      omega

end QiLink
